import Mathlib

/-!
Shallow embedding of the signal-fusion core of the Medalion repository.

Sources embedded:
* `src/src/strategies/base_strategy.py` — signal data model, performance
  bookkeeping, weight adjustment.
* `src/src/strategies/strategy_tree.py` — weighted-voting fusion
  (`calculate_composite_signal`) and weight adaptation (`optimize_weights`).
* `src/src/strategies/changlun_strategy.py` — the Chan-theory pipeline
  (fractals, strokes, trend, relative position, buy/sell points,
  divergence, emotion, comprehensive decision).

Python floats are modelled as rationals (ℚ); pandas DataFrames as lists of
bar records carrying the indicator columns the embedded code reads.
-/

namespace Medalion

/-- `SignalType` enum from base_strategy.py (BUY = 1, SELL = -1, HOLD = 0). -/
inductive SignalType where
  | buy
  | sell
  | hold
deriving DecidableEq, Repr

/-- `SignalStrength` enum from base_strategy.py (WEAK = 1, MEDIUM = 2, STRONG = 3). -/
inductive SignalStrength where
  | weak
  | medium
  | strong
deriving DecidableEq, Repr

/-- Numeric `.value` of a `SignalStrength`, as used by the fusion scores. -/
def SignalStrength.value : SignalStrength → ℚ
  | .weak => 1
  | .medium => 2
  | .strong => 3

/-- `TradingSignal` from base_strategy.py.  The free-text reason and the
timestamp carry no algorithmic content and are omitted. -/
structure TradingSignal where
  signal_type : SignalType
  strength : SignalStrength
  confidence : ℚ
deriving DecidableEq, Repr

/-- The `performance_metrics` dict of `BaseStrategy`.  The Python code uses a
string-keyed dict touching exactly the keys `total_pnl`, `trade_count` and
`win_rate`; each is modelled as an optional field (`none` = key absent). -/
structure PerformanceMetrics where
  total_pnl : Option ℚ
  trade_count : Option ℕ
  win_rate : Option ℚ
deriving DecidableEq, Repr

/-- A fresh `BaseStrategy.performance_metrics` (the empty dict). -/
def initMetrics : PerformanceMetrics := ⟨none, none, none⟩

/-- `BaseStrategy.update_performance`: ensures `total_pnl`/`trade_count`
keys exist (initialised to 0), then adds the trade's profit or loss and
increments the trade count.  The `win_rate` key is never written. -/
def update_performance (m : PerformanceMetrics) (profit_loss : ℚ) : PerformanceMetrics :=
  let m0 := if m.total_pnl = none then { m with total_pnl := some 0, trade_count := some 0 } else m
  { m0 with
    total_pnl := some (m0.total_pnl.getD 0 + profit_loss),
    trade_count := some (m0.trade_count.getD 0 + 1) }

/-- `BaseStrategy.get_win_rate`: `performance_metrics.get('win_rate', 0.0)`. -/
def get_win_rate (m : PerformanceMetrics) : ℚ := m.win_rate.getD 0

/-- `BaseStrategy.adjust_weight`: multiply and clamp into [0.1, 2.0]. -/
def adjust_weight (weight performance_factor : ℚ) : ℚ :=
  max 0.1 (min 2.0 (weight * performance_factor))

/-- A strategy as seen by `StrategyTree`: its weight, enabled flag and
metrics, plus the result of `calculate_signal(data)` on the series under
consideration (the abstract method, represented by its value). -/
structure StrategySource where
  weight : ℚ
  enabled : Bool
  metrics : PerformanceMetrics
  signal : Option TradingSignal
deriving DecidableEq, Repr

/-- The signal-collection loop of `StrategyTree.calculate_composite_signal`:
skip disabled strategies, keep `(signal, weight)` for each strategy whose
`calculate_signal` returned a signal. -/
def collectSignals (sources : List StrategySource) : List (TradingSignal × ℚ) :=
  sources.filterMap (fun s =>
    if s.enabled then s.signal.map (fun sig => (sig, s.weight)) else none)

/-- `total_weight`: sum of the contributing strategies' weights. -/
def totalWeight (signals : List (TradingSignal × ℚ)) : ℚ :=
  (signals.map (fun p => p.2)).sum

/-- Accumulated `buy_score`: for each BUY contributor,
`confidence * weight * strength.value`. -/
def buyScore (signals : List (TradingSignal × ℚ)) : ℚ :=
  (signals.map (fun p =>
    if p.1.signal_type = SignalType.buy then p.1.confidence * p.2 * p.1.strength.value else 0)).sum

/-- Accumulated `sell_score`: for each SELL contributor,
`confidence * weight * strength.value`. -/
def sellScore (signals : List (TradingSignal × ℚ)) : ℚ :=
  (signals.map (fun p =>
    if p.1.signal_type = SignalType.sell then p.1.confidence * p.2 * p.1.strength.value else 0)).sum

/-- Accumulated `confidence_sum`: `confidence * weight` over all contributors. -/
def confidenceSum (signals : List (TradingSignal × ℚ)) : ℚ :=
  (signals.map (fun p => p.1.confidence * p.2)).sum

/-- The `if total_weight > 0` normalisation step. -/
def normalizeBy (total_weight x : ℚ) : ℚ :=
  if 0 < total_weight then x / total_weight else x

/-- Strength thresholds of the fusion decision (`> 0.8` strong, `> 0.7` medium). -/
def scoreStrength (score : ℚ) : SignalStrength :=
  if 0.8 < score then .strong else if 0.7 < score then .medium else .weak

/-- The decision tail of `calculate_composite_signal`, operating on the
collected `(signal, weight)` pairs: normalise the scores, pick the larger
score if it beats the risk threshold, otherwise HOLD (returned as `none`). -/
def compositeDecision (risk_threshold : ℚ) (signals : List (TradingSignal × ℚ)) :
    Option TradingSignal :=
  let tw := totalWeight signals
  let buy_score := normalizeBy tw (buyScore signals)
  let sell_score := normalizeBy tw (sellScore signals)
  let confidence_sum := normalizeBy tw (confidenceSum signals)
  if sell_score < buy_score ∧ risk_threshold < buy_score then
    some ⟨SignalType.buy, scoreStrength buy_score, confidence_sum⟩
  else if buy_score < sell_score ∧ risk_threshold < sell_score then
    some ⟨SignalType.sell, scoreStrength sell_score, confidence_sum⟩
  else
    none

/-- `StrategyTree.calculate_composite_signal`: no strategies or no
contributing signals ⇒ no composite signal; otherwise run the weighted
voting decision.  `risk_threshold` defaults to 0.6 in the constructor. -/
def calculate_composite_signal (risk_threshold : ℚ) (sources : List StrategySource) :
    Option TradingSignal :=
  if sources = [] then none
  else if collectSignals sources = [] then none
  else compositeDecision risk_threshold (collectSignals sources)

/-- The per-strategy body of `StrategyTree.optimize_weights`: win rate above
0.6 scales the weight by 1.1, below 0.4 by 0.9, otherwise unchanged
(scaling goes through `adjust_weight`, which clamps to [0.1, 2.0]). -/
def optimize_source (s : StrategySource) : StrategySource :=
  let win_rate := get_win_rate s.metrics
  if 0.6 < win_rate then { s with weight := adjust_weight s.weight 1.1 }
  else if win_rate < 0.4 then { s with weight := adjust_weight s.weight 0.9 }
  else s

/-- `StrategyTree.optimize_weights`: apply the adaptation to every strategy. -/
def optimize_weights (sources : List StrategySource) : List StrategySource :=
  sources.map optimize_source

/-! ## ChangLunStrategy (changlun_strategy.py) -/

/-- `TrendDirection` enum (UP = 1, DOWN = -1, SIDEWAYS = 0). -/
inductive TrendDirection where
  | up
  | down
  | sideways
deriving DecidableEq, Repr

/-- `RelativePosition` enum (HIGH / MEDIUM_HIGH / MEDIUM / MEDIUM_LOW / LOW). -/
inductive RelativePosition where
  | high
  | medium_high
  | medium
  | medium_low
  | low
deriving DecidableEq, Repr

/-- `BuyingSellPoint` enum (一买..三卖). -/
inductive BuyingSellPoint where
  | buy_1
  | buy_2
  | buy_3
  | sell_1
  | sell_2
  | sell_3
deriving DecidableEq, Repr

/-- Fractal type: `'top'` or `'bottom'`. -/
inductive FractalType where
  | top
  | bottom
deriving DecidableEq, Repr

/-- A fractal dict as produced by `_identify_fractals` (timestamp omitted). -/
structure Fractal where
  index : ℕ
  type : FractalType
  price : ℚ
deriving DecidableEq, Repr

/-- Stroke direction: `'up'` or `'down'`. -/
inductive StrokeDir where
  | up
  | down
deriving DecidableEq, Repr

/-- A stroke dict as produced by `_identify_strokes`; `start_index` and
`end_index` of the Python dict are the indices of the two fractals. -/
structure Stroke where
  start_fractal : Fractal
  end_fractal : Fractal
  direction : StrokeDir
  strength : ℚ
deriving DecidableEq, Repr

/-- One row of the input DataFrame, with the indicator columns the embedded
ChangLun code reads (`high`, `low`, `close`, `MA_5/20/60`, `MACD`, `RSI`). -/
structure Bar where
  high : ℚ
  low : ℚ
  close : ℚ
  ma5 : ℚ
  ma20 : ℚ
  ma60 : ℚ
  macd : ℚ
  rsi : ℚ
deriving DecidableEq, Repr

/-- The input DataFrame: a chronologically ordered list of bars. -/
abbrev MarketData := List Bar

/-- `data.tail(n)` of pandas: the last `n` rows (all rows when shorter). -/
def tailN (n : ℕ) (l : List α) : List α := l.drop (l.length - n)

/-- `l[-2]` on a Python list of length ≥ 2. -/
def secondLast (l : List α) : Option α := (tailN 2 l).head?

/-- `high` column at integer position `i` (inputs keep `i` in range). -/
def highAt (data : MarketData) (i : ℕ) : ℚ := ((data.get? i).map Bar.high).getD 0

/-- `low` column at integer position `i` (inputs keep `i` in range). -/
def lowAt (data : MarketData) (i : ℕ) : ℚ := ((data.get? i).map Bar.low).getD 0

/-- `MACD` column at integer position `i` (inputs keep `i` in range). -/
def macdAt (data : MarketData) (i : ℕ) : ℚ := ((data.get? i).map Bar.macd).getD 0

/-- Maximum of a list of rationals (pandas `.max()` on a nonempty column). -/
def listMax : List ℚ → ℚ
  | [] => 0
  | x :: xs => xs.foldl max x

/-- Minimum of a list of rationals (pandas `.min()` on a nonempty column). -/
def listMin : List ℚ → ℚ
  | [] => 0
  | x :: xs => xs.foldl min x

/-- `min_k_for_stroke` (minimum K-lines for a stroke). -/
def min_k_for_stroke : ℕ := 5

/-- `position_lookback` (relative-position lookback window). -/
def position_lookback : ℕ := 120

/-- `ChangLunStrategy._identify_fractals`: for every interior index
`2 ≤ i ≤ n-3`, a top fractal when `high[i]` strictly exceeds the two highs
on each side, a bottom fractal when `low[i]` is strictly below the two lows
on each side; both may be emitted at the same index. -/
def identify_fractals (data : MarketData) : List Fractal :=
  ((List.range data.length).map (fun i =>
    if 2 ≤ i ∧ i + 2 < data.length then
      (if highAt data (i-2) < highAt data i ∧ highAt data (i-1) < highAt data i ∧
          highAt data (i+1) < highAt data i ∧ highAt data (i+2) < highAt data i then
        [Fractal.mk i FractalType.top (highAt data i)]
      else []) ++
      (if lowAt data i < lowAt data (i-2) ∧ lowAt data i < lowAt data (i-1) ∧
          lowAt data i < lowAt data (i+1) ∧ lowAt data i < lowAt data (i+2) then
        [Fractal.mk i FractalType.bottom (lowAt data i)]
      else [])
    else [])).flatten

/-- One step of the anchor scan in `_identify_strokes`: emit a stroke when
the candidate's type differs from the anchor's and the index gap is at
least `min_k_for_stroke`, then re-anchor; otherwise skip the candidate. -/
def strokeStep (acc : List Stroke × Fractal) (next_fractal : Fractal) :
    List Stroke × Fractal :=
  let (strokes, current_fractal) := acc
  if current_fractal.type ≠ next_fractal.type ∧
      current_fractal.index + min_k_for_stroke ≤ next_fractal.index then
    let (direction, strength) :=
      if current_fractal.type = FractalType.bottom ∧ next_fractal.type = FractalType.top then
        (StrokeDir.up, (next_fractal.price - current_fractal.price) / current_fractal.price)
      else
        (StrokeDir.down, (current_fractal.price - next_fractal.price) / current_fractal.price)
    (strokes ++ [⟨current_fractal, next_fractal, direction, strength⟩], next_fractal)
  else
    (strokes, current_fractal)

/-- `ChangLunStrategy._identify_strokes`: fewer than 2 fractals ⇒ no
strokes; otherwise scan the fractal list with a moving anchor. -/
def identify_strokes (fractals : List Fractal) : List Stroke :=
  match fractals with
  | [] => []
  | [_] => []
  | f :: rest => (rest.foldl strokeStep ([], f)).1

/-- `ChangLunStrategy._analyze_trend`: average the sign of the recent-stroke
majority with the moving-average alignment score and threshold at ±0.5. -/
def analyze_trend (data : MarketData) (strokes : List Stroke) : TrendDirection :=
  if strokes.length < 3 then TrendDirection.sideways
  else
    let recent_strokes := tailN 3 strokes
    let up_strokes := (recent_strokes.filter (fun s => s.direction = StrokeDir.up)).length
    let down_strokes := (recent_strokes.filter (fun s => s.direction = StrokeDir.down)).length
    let latest := (data.getLast?).getD ⟨0, 0, 0, 0, 0, 0, 0, 0⟩
    let ma_trend_score : ℚ :=
      if latest.ma20 < latest.ma5 ∧ latest.ma60 < latest.ma20 then 1
      else if latest.ma5 < latest.ma20 ∧ latest.ma20 < latest.ma60 then -1
      else 0
    let stroke_trend_score : ℚ :=
      if down_strokes < up_strokes then 1 else if up_strokes < down_strokes then -1 else 0
    let combined_score := (stroke_trend_score + ma_trend_score) / 2
    if (0.5 : ℚ) < combined_score then TrendDirection.up
    else if combined_score < (-0.5 : ℚ) then TrendDirection.down
    else TrendDirection.sideways

/-- `ChangLunStrategy._calculate_relative_position`: position of the last
close within the trailing-window high/low range (0.5 on a flat window),
bucketed at 0.8 / 0.6 / 0.4 / 0.2. -/
def calculate_relative_position (data : MarketData) : RelativePosition :=
  let lookback_data := tailN position_lookback data
  let current_price := ((data.getLast?).map Bar.close).getD 0
  let high_price := listMax (lookback_data.map Bar.high)
  let low_price := listMin (lookback_data.map Bar.low)
  let position_pct : ℚ :=
    if high_price = low_price then 0.5
    else (current_price - low_price) / (high_price - low_price)
  if (0.8 : ℚ) ≤ position_pct then RelativePosition.high
  else if (0.6 : ℚ) ≤ position_pct then RelativePosition.medium_high
  else if (0.4 : ℚ) ≤ position_pct then RelativePosition.medium
  else if (0.2 : ℚ) ≤ position_pct then RelativePosition.medium_low
  else RelativePosition.low

/-- `ChangLunStrategy._is_second_buy_point`: needs ≥ 3 strokes; the latest
stroke must be a pullback whose strength lies in the golden-ratio band
[0.3, 0.618]. -/
def is_second_buy_point (strokes : List Stroke) : Bool :=
  if strokes.length < 3 then false
  else
    match strokes.getLast? with
    | none => false
    | some current_stroke =>
      if current_stroke.direction = StrokeDir.down then
        decide ((0.3 : ℚ) ≤ current_stroke.strength ∧ current_stroke.strength ≤ (0.618 : ℚ))
      else false

/-- `ChangLunStrategy._is_third_buy_point`: needs ≥ 4 strokes; among the
last 4 strokes, the up-strokes' end prices must contain at least two
entries with the last strictly above the one before it (a new high). -/
def is_third_buy_point (strokes : List Stroke) : Bool :=
  if strokes.length < 4 then false
  else
    let recent_highs :=
      ((tailN 4 strokes).filter (fun s => s.direction = StrokeDir.up)).map
        (fun s => s.end_fractal.price)
    match tailN 2 recent_highs with
    | [a, b] => decide (a < b)
    | _ => false

/-- `ChangLunStrategy._is_second_sell_point`: mirror of the second buy
point for an up-stroke rebound. -/
def is_second_sell_point (strokes : List Stroke) : Bool :=
  if strokes.length < 3 then false
  else
    match strokes.getLast? with
    | none => false
    | some current_stroke =>
      if current_stroke.direction = StrokeDir.up then
        decide ((0.3 : ℚ) ≤ current_stroke.strength ∧ current_stroke.strength ≤ (0.618 : ℚ))
      else false

/-- `ChangLunStrategy._is_third_sell_point`: mirror of the third buy point
(a new low among the last 4 strokes' down-stroke end prices). -/
def is_third_sell_point (strokes : List Stroke) : Bool :=
  if strokes.length < 4 then false
  else
    let recent_lows :=
      ((tailN 4 strokes).filter (fun s => s.direction = StrokeDir.down)).map
        (fun s => s.end_fractal.price)
    match tailN 2 recent_lows with
    | [a, b] => decide (b < a)
    | _ => false

/-- `ChangLunStrategy._identify_buy_sell_points`: in an up trend with a
down latest stroke and ≥ 3 strokes whose previous stroke is up, classify
BUY_2 (else BUY_3 if that test passes); mirrored for a down trend. -/
def identify_buy_sell_points (strokes : List Stroke) (trend : TrendDirection) :
    List BuyingSellPoint :=
  if strokes.length < 2 then []
  else
    match strokes.getLast? with
    | none => []
    | some latest_stroke =>
      match trend with
      | TrendDirection.up =>
        if latest_stroke.direction = StrokeDir.down ∧ 3 ≤ strokes.length then
          match secondLast strokes with
          | some prev_stroke =>
            if prev_stroke.direction = StrokeDir.up then
              if is_second_buy_point strokes then [BuyingSellPoint.buy_2]
              else if is_third_buy_point strokes then [BuyingSellPoint.buy_3]
              else []
            else []
          | none => []
        else []
      | TrendDirection.down =>
        if latest_stroke.direction = StrokeDir.up ∧ 3 ≤ strokes.length then
          match secondLast strokes with
          | some prev_stroke =>
            if prev_stroke.direction = StrokeDir.down then
              if is_second_sell_point strokes then [BuyingSellPoint.sell_2]
              else if is_third_sell_point strokes then [BuyingSellPoint.sell_3]
              else []
            else []
          | none => []
        else []
      | TrendDirection.sideways => []

/-- `ChangLunStrategy._detect_divergence`: for the last two strokes of the
same direction, compare end prices with the MACD values at the end indices;
the up-pair case returns the string `"bullish_divergence"` (its inline
comment reads 顶背驰, top divergence), the down-pair case returns
`"bearish_divergence"` (comment 底背驰, bottom divergence). -/
def detect_divergence (data : MarketData) (strokes : List Stroke) : Option String :=
  if strokes.length < 2 ∨ data.length < 50 then none
  else
    match strokes.getLast?, secondLast strokes with
    | some latest_stroke, some prev_stroke =>
      if latest_stroke.direction ≠ prev_stroke.direction then none
      else
        match latest_stroke.direction with
        | StrokeDir.up =>
          if prev_stroke.end_fractal.price < latest_stroke.end_fractal.price ∧
              macdAt data latest_stroke.end_fractal.index <
                macdAt data prev_stroke.end_fractal.index then
            some "bullish_divergence"
          else none
        | StrokeDir.down =>
          if latest_stroke.end_fractal.price < prev_stroke.end_fractal.price ∧
              macdAt data prev_stroke.end_fractal.index <
                macdAt data latest_stroke.end_fractal.index then
            some "bearish_divergence"
          else none
    | _, _ => none

/-- The dict returned by `_monitor_emotion_indicators` (the raw RSI value
is only echoed into reason strings and is omitted). -/
structure EmotionSignals where
  rsi_overbought : Bool
  rsi_oversold : Bool
  extreme_emotion : Bool
deriving DecidableEq, Repr

/-- `ChangLunStrategy._monitor_emotion_indicators` on the latest bar's RSI
with the default thresholds (overbought 80, oversold 20, extreme 90/10). -/
def monitor_emotion_indicators (data : MarketData) : EmotionSignals :=
  let rsi := ((data.getLast?).map Bar.rsi).getD 0
  { rsi_overbought := decide ((80 : ℚ) < rsi),
    rsi_oversold := decide (rsi < (20 : ℚ)),
    extreme_emotion := decide ((90 : ℚ) < rsi ∨ rsi < (10 : ℚ)) }

/-- Step 1 of `_make_comprehensive_decision` (trend consistency): a buy
point in an up trend sets BUY and adds 0.2; a sell point in a down trend
sets SELL and adds 0.2.  Returns (signal_type, confidence). -/
def step1 (trend : TrendDirection) (buy_sell_points : List BuyingSellPoint) :
    SignalType × ℚ :=
  if trend = TrendDirection.up ∧
      buy_sell_points.any (fun bp =>
        decide (bp = BuyingSellPoint.buy_2 ∨ bp = BuyingSellPoint.buy_3)) then
    (SignalType.buy, 0.5 + 0.2)
  else if trend = TrendDirection.down ∧
      buy_sell_points.any (fun bp =>
        decide (bp = BuyingSellPoint.sell_2 ∨ bp = BuyingSellPoint.sell_3)) then
    (SignalType.sell, 0.5 + 0.2)
  else
    (SignalType.hold, 0.5)

/-- Step 2 (relative-position weighting): buy gains 0.2 at low/medium-low
positions, loses 0.1 at a high position; sell gains 0.2 at high or
medium-high positions. -/
def step2 (signal_type : SignalType) (position : RelativePosition) (confidence : ℚ) : ℚ :=
  if signal_type = SignalType.buy then
    if position = RelativePosition.low ∨ position = RelativePosition.medium_low then
      confidence + 0.2
    else if position = RelativePosition.high then confidence - 0.1
    else confidence
  else if signal_type = SignalType.sell then
    if position = RelativePosition.high ∨ position = RelativePosition.medium_high then
      confidence + 0.2
    else confidence
  else confidence

/-- Step 3 (divergence confirmation): `"bearish_divergence"` with a buy
direction, or `"bullish_divergence"` with a sell direction, adds 0.15. -/
def step3 (signal_type : SignalType) (divergence : Option String) (confidence : ℚ) : ℚ :=
  match divergence with
  | some d =>
    if d = "bearish_divergence" ∧ signal_type = SignalType.buy then confidence + 0.15
    else if d = "bullish_divergence" ∧ signal_type = SignalType.sell then confidence + 0.15
    else confidence
  | none => confidence

/-- Step 4 (emotion filter): under extreme emotion, oversold + buy or
overbought + sell adds 0.1 and sets strength to STRONG.
Returns (confidence, strength); strength enters as WEAK. -/
def step4 (signal_type : SignalType) (emotion : EmotionSignals)
    (confidence : ℚ) (strength : SignalStrength) : ℚ × SignalStrength :=
  if emotion.extreme_emotion then
    if emotion.rsi_oversold ∧ signal_type = SignalType.buy then
      (confidence + 0.1, SignalStrength.strong)
    else if emotion.rsi_overbought ∧ signal_type = SignalType.sell then
      (confidence + 0.1, SignalStrength.strong)
    else (confidence, strength)
  else (confidence, strength)

/-- Step 5 (strength from confidence): ≥ 0.8 STRONG, ≥ 0.6 MEDIUM,
otherwise the strength left by step 4. -/
def step5 (confidence : ℚ) (strength : SignalStrength) : SignalStrength :=
  if (0.8 : ℚ) ≤ confidence then SignalStrength.strong
  else if (0.6 : ℚ) ≤ confidence then SignalStrength.medium
  else strength

/-- `ChangLunStrategy._make_comprehensive_decision`: run steps 1-5, then
emit a signal (confidence capped at 1.0) unless the direction is HOLD or
the confidence fell below 0.5. -/
def make_comprehensive_decision (trend : TrendDirection) (position : RelativePosition)
    (buy_sell_points : List BuyingSellPoint) (divergence : Option String)
    (emotion : EmotionSignals) : Option TradingSignal :=
  let st := (step1 trend buy_sell_points).1
  let c1 := (step1 trend buy_sell_points).2
  let c2 := step2 st position c1
  let c3 := step3 st divergence c2
  let c4 := (step4 st emotion c3 SignalStrength.weak).1
  let s4 := (step4 st emotion c3 SignalStrength.weak).2
  let s5 := step5 c4 s4
  if st = SignalType.hold ∨ c4 < 0.5 then none
  else some ⟨st, s5, min c4 1.0⟩

/-- `ChangLunStrategy.calculate_signal`: refuse series shorter than the
position lookback (120 bars), build fractals and strokes, bail out with no
signal when no stroke exists, then run the six analysis dimensions and the
comprehensive decision. -/
def calculate_signal (data : MarketData) : Option TradingSignal :=
  if data.length < position_lookback then none
  else
    let fractals := identify_fractals data
    let strokes := identify_strokes fractals
    if strokes = [] then none
    else
      let trend_direction := analyze_trend data strokes
      let relative_position := calculate_relative_position data
      let buy_sell_points := identify_buy_sell_points strokes trend_direction
      let divergence_signal := detect_divergence data strokes
      let emotion_signal := monitor_emotion_indicators data
      make_comprehensive_decision trend_direction relative_position buy_sell_points
        divergence_signal emotion_signal

/-! ## Concrete inputs used by the scenario claims -/

/-- A source of weight 1.0 emitting buy/strong with confidence 0.9. -/
def srcBuyStrong : StrategySource :=
  ⟨1, true, initMetrics, some ⟨SignalType.buy, SignalStrength.strong, 0.9⟩⟩

/-- A source of weight 1.0 emitting sell/weak with confidence 0.9. -/
def srcSellWeak : StrategySource :=
  ⟨1, true, initMetrics, some ⟨SignalType.sell, SignalStrength.weak, 0.9⟩⟩

/-- An up-stroke of strength 0.10 (bottom 100 at index 5 to top 110 at index 10). -/
def strokeUp10 : Stroke :=
  ⟨⟨5, FractalType.bottom, 100⟩, ⟨10, FractalType.top, 110⟩, StrokeDir.up, 0.1⟩

/-- A down-stroke of strength 0.40 (top 110 at index 10 to bottom 66 at index 15). -/
def strokeDown40 : Stroke :=
  ⟨⟨10, FractalType.top, 110⟩, ⟨15, FractalType.bottom, 66⟩, StrokeDir.down, 0.4⟩

/-- Scenario C's stroke decomposition: exactly the two strokes above. -/
def strokesTwo : List Stroke := [strokeUp10, strokeDown40]

/-- A down-stroke preceding `strokeUp10` (top 120 at index 0 to bottom 100 at index 5). -/
def strokeDownLead : Stroke :=
  ⟨⟨0, FractalType.top, 120⟩, ⟨5, FractalType.bottom, 100⟩, StrokeDir.down, 1/6⟩

/-- Scenario C's strokes preceded by one more stroke, so the ≥ 3 gate passes. -/
def strokesThree : List Stroke := [strokeDownLead, strokeUp10, strokeDown40]

/-- Neutral emotion readings (RSI well inside all thresholds). -/
def emotionNeutral : EmotionSignals := ⟨false, false, false⟩

/-- Extreme-oversold emotion readings (RSI below 10). -/
def emotionOversold : EmotionSignals := ⟨false, true, true⟩

/-- A bar whose only distinguishing column is its MACD value. -/
def mkMacdBar (m : ℚ) : Bar := ⟨0, 0, 0, 0, 0, 0, m, 50⟩

/-- 50 bars with MACD 5 at index 10, 1 at index 20, 2 at index 40,
3 at index 45, and 0 elsewhere. -/
def dataMacd : MarketData :=
  (List.range 50).map (fun i =>
    mkMacdBar (if i = 10 then 5 else if i = 20 then 1
               else if i = 40 then 2 else if i = 45 then 3 else 0))

/-- Two consecutive up-strokes: end prices 100 (index 10) then 110
(index 40) — a higher high with a lower MACD (5 then 2) in `dataMacd`. -/
def strokesUpPair : List Stroke :=
  [⟨⟨5, FractalType.bottom, 90⟩, ⟨10, FractalType.top, 100⟩, StrokeDir.up, 1/9⟩,
   ⟨⟨35, FractalType.bottom, 95⟩, ⟨40, FractalType.top, 110⟩, StrokeDir.up, 3/19⟩]

/-- Two consecutive down-strokes: end prices 100 (index 20) then 90
(index 45) — a lower low with a higher MACD (1 then 3) in `dataMacd`. -/
def strokesDownPair : List Stroke :=
  [⟨⟨15, FractalType.top, 110⟩, ⟨20, FractalType.bottom, 100⟩, StrokeDir.down, 1/11⟩,
   ⟨⟨40, FractalType.top, 105⟩, ⟨45, FractalType.bottom, 90⟩, StrokeDir.down, 1/7⟩]

/-- Four alternating strokes whose latest down-stroke has strength 0.40 and
whose two up-strokes make a higher high (100 then 110): both the buy-2 and
the buy-3 tests pass on this list. -/
def strokesBothTests : List Stroke :=
  [⟨⟨0, FractalType.bottom, 90⟩, ⟨5, FractalType.top, 100⟩, StrokeDir.up, 1/9⟩,
   ⟨⟨5, FractalType.top, 100⟩, ⟨10, FractalType.bottom, 95⟩, StrokeDir.down, 1/20⟩,
   ⟨⟨10, FractalType.bottom, 95⟩, ⟨15, FractalType.top, 110⟩, StrokeDir.up, 3/19⟩,
   ⟨⟨15, FractalType.top, 110⟩, ⟨20, FractalType.bottom, 66⟩, StrokeDir.down, 2/5⟩]

/-- As `strokesBothTests` but the latest pullback has strength 0.70, so the
buy-2 test fails while the buy-3 test still passes. -/
def strokesThirdOnly : List Stroke :=
  [⟨⟨0, FractalType.bottom, 90⟩, ⟨5, FractalType.top, 100⟩, StrokeDir.up, 1/9⟩,
   ⟨⟨5, FractalType.top, 100⟩, ⟨10, FractalType.bottom, 95⟩, StrokeDir.down, 1/20⟩,
   ⟨⟨10, FractalType.bottom, 95⟩, ⟨15, FractalType.top, 110⟩, StrokeDir.up, 3/19⟩,
   ⟨⟨15, FractalType.top, 110⟩, ⟨20, FractalType.bottom, 33⟩, StrokeDir.down, 7/10⟩]

/-- A single flat bar (high = low = close = 10). -/
def flatBar : Bar := ⟨10, 10, 10, 0, 0, 0, 0, 50⟩

/-! ## Theorems

The concrete scenario theorems are settled by kernel evaluation; the
rational primitives are restored to their default reducibility for that
purpose (they are `irreducible` only as an elaborator hint). -/

attribute [local semireducible] Rat.add Rat.mul Rat.inv Rat.sub Rat.ofScientific

/-- C1 (counterexample): with two enabled weight-1.0 sources, one
buy/strong/0.9 and one sell/weak/0.9, and threshold 0.6, the fusion does
NOT return `none` — the strength multiplier pushes the normalised buy
score to 1.35, past the threshold. -/
theorem c1_counterexample :
    ¬ calculate_composite_signal 0.6 [srcBuyStrong, srcSellWeak] = none := by
  decide

/-- C1 (amended): in Scenario D the fusion emits a composite BUY signal of
strength strong with confidence 0.9 (normalised buy score 2.7/2 = 1.35
beats both the sell score 0.45 and the 0.6 threshold, and exceeds the 0.8
strong cutoff). -/
theorem c1_amended_composite_buy :
    calculate_composite_signal 0.6 [srcBuyStrong, srcSellWeak] =
      some ⟨SignalType.buy, SignalStrength.strong, 0.9⟩ := by
  decide

/-- C2 (counterexample): on a decomposition of exactly two strokes — an
up-stroke of strength 0.10 then a down-stroke of strength 0.40 — with
trend up, no buy point is classified (the classifier requires at least 3
strokes), and the composer consequently emits no signal even at a low
relative position. -/
theorem c2_counterexample :
    identify_buy_sell_points strokesTwo TrendDirection.up = [] ∧
    make_comprehensive_decision TrendDirection.up RelativePosition.low
      (identify_buy_sell_points strokesTwo TrendDirection.up) none emotionNeutral = none := by
  decide

/-- C2 (amended): once a third, earlier stroke is present, the same
up-0.10 / down-0.40 ending classifies buy_2 (retracement 0.40 within
[0.3, 0.618]) and the composer emits a BUY signal with confidence
0.9 ≥ 0.7 (strength strong) at trend up / position low. -/
theorem c2_amended_buy2 :
    identify_buy_sell_points strokesThree TrendDirection.up = [BuyingSellPoint.buy_2] ∧
    make_comprehensive_decision TrendDirection.up RelativePosition.low
      (identify_buy_sell_points strokesThree TrendDirection.up) none emotionNeutral =
      some ⟨SignalType.buy, SignalStrength.strong, 0.9⟩ := by
  decide

/-- C3: evaluating the divergence detector at the failing inputs: an
up-directed pair with a higher high in price and a lower MACD value
returns the string `"bullish_divergence"` (the claim, the spec and the
code's own 顶背驰 comment all call this case bearish/top divergence), and
the mirrored down-directed pair returns `"bearish_divergence"` — the two
labels are swapped in the code. -/
theorem c3_swapped_labels :
    detect_divergence dataMacd strokesUpPair = some "bullish_divergence" ∧
    detect_divergence dataMacd strokesDownPair = some "bearish_divergence" := by
  decide

/-- C4 (counterexample): at trend up, position high, a buy_2 point and
extreme-oversold emotion, step 4 fires (confidence 0.6 + 0.1 = 0.7 and
strength forced strong), yet the emitted signal's strength is MEDIUM —
step 5's confidence rule overwrote the forced strong. -/
theorem c4_counterexample :
    Option.map TradingSignal.strength
      (make_comprehensive_decision TrendDirection.up RelativePosition.high
        [BuyingSellPoint.buy_2] none emotionOversold) = some SignalStrength.medium := by
  decide

/-- C5 (counterexample): on `strokesBothTests` both the buy-2 test and the
buy-3 test pass, yet the classifier reports only buy_2 — the two
classifications never co-occur because the code chains them with elif. -/
theorem c5_counterexample :
    is_second_buy_point strokesBothTests = true ∧
    is_third_buy_point strokesBothTests = true ∧
    identify_buy_sell_points strokesBothTests TrendDirection.up = [BuyingSellPoint.buy_2] := by
  decide

/-- C8 (counterexample): on a one-bar series (fewer than 120 bars) the
relative-position calculator returns the position class `medium`, not an
insufficient-data marker. -/
theorem c8_counterexample :
    calculate_relative_position [flatBar] = RelativePosition.medium ∧
    List.length [flatBar] < 120 := by
  decide

/-- C7: one adaptation pass maps a source's weight to
`max 0.1 (min 2.0 (w × 1.1))` when its win rate exceeds 0.6, to
`max 0.1 (min 2.0 (w × 0.9))` when it is below 0.4, and leaves it
unchanged otherwise; at win rate 0.65 with previous weight ≥ 0.1 the lower
clamp is inert and the new weight is `min 2.0 (w × 1.1)`. -/
theorem c7_weight_adaptation :
    (∀ s : StrategySource,
      ((0.6 : ℚ) < get_win_rate s.metrics →
        (optimize_source s).weight = max 0.1 (min 2.0 (s.weight * 1.1))) ∧
      (get_win_rate s.metrics < (0.4 : ℚ) →
        (optimize_source s).weight = max 0.1 (min 2.0 (s.weight * 0.9))) ∧
      ((0.4 : ℚ) ≤ get_win_rate s.metrics → get_win_rate s.metrics ≤ (0.6 : ℚ) →
        (optimize_source s).weight = s.weight)) ∧
    (∀ s : StrategySource, get_win_rate s.metrics = (0.65 : ℚ) → (0.1 : ℚ) ≤ s.weight →
      (optimize_source s).weight = min 2.0 (s.weight * 1.1)) := by
  constructor
  · intro s
    refine ⟨fun h => ?_, fun h => ?_, fun h1 h2 => ?_⟩
    · simp only [optimize_source, adjust_weight, if_pos h]
    · rw [optimize_source]
      rw [if_neg (by intro hgt; linarith), if_pos h]
      rfl
    · rw [optimize_source]
      rw [if_neg (by intro hgt; linarith), if_neg (by intro hlt; linarith)]
  · intro s hwr hw
    have h06 : (0.6 : ℚ) < get_win_rate s.metrics := by rw [hwr]; norm_num
    have hstep : (optimize_source s).weight = max 0.1 (min 2.0 (s.weight * 1.1)) := by
      simp only [optimize_source, adjust_weight, if_pos h06]
    rw [hstep]
    refine max_eq_right (le_min (by norm_num) ?_)
    nlinarith

/-- C7 witness: a source with recorded win rate 0.65 and weight 1 adapts
to weight `min 2.0 (1 × 1.1)`. -/
theorem c7_weight_adaptation_witness :
    (optimize_source ⟨1, true, ⟨none, none, some 0.65⟩, none⟩).weight = min 2.0 (1 * 1.1) :=
  c7_weight_adaptation.2 ⟨1, true, ⟨none, none, some 0.65⟩, none⟩ rfl (by norm_num)

/-- `update_performance` never touches the `win_rate` entry. -/
theorem update_performance_win_rate_eq (m : PerformanceMetrics) (pl : ℚ) :
    (update_performance m pl).win_rate = m.win_rate := by
  rw [update_performance]
  split <;> rfl

/-- Any number of recorded trades leaves the `win_rate` entry where it started. -/
theorem foldl_update_performance_win_rate (pnls : List ℚ) :
    ∀ m : PerformanceMetrics, (pnls.foldl update_performance m).win_rate = m.win_rate := by
  induction pnls with
  | nil => intro m; rfl
  | cons p rest ih =>
    intro m
    rw [List.foldl_cons, ih, update_performance_win_rate_eq]

/-- C10: `get_win_rate` reads the `win_rate` metric, which
`update_performance` never writes, so recording trades never changes the
reported win rate; starting from fresh metrics it stays 0.0, and the
adaptation pass therefore always takes the `< 0.4` branch, scaling the
weight by 0.9 under the [0.1, 2.0] clamp. -/
theorem c10_win_rate_never_written :
    (∀ (m : PerformanceMetrics) (pl : ℚ),
      get_win_rate (update_performance m pl) = get_win_rate m) ∧
    (∀ pnls : List ℚ, get_win_rate (pnls.foldl update_performance initMetrics) = 0) ∧
    (∀ (pnls : List ℚ) (w : ℚ) (en : Bool) (sig : Option TradingSignal),
      (optimize_source ⟨w, en, pnls.foldl update_performance initMetrics, sig⟩).weight
        = max 0.1 (min 2.0 (w * 0.9))) := by
  have hfold : ∀ pnls : List ℚ, get_win_rate (pnls.foldl update_performance initMetrics) = 0 := by
    intro pnls
    rw [get_win_rate, foldl_update_performance_win_rate]
    rfl
  refine ⟨fun m pl => ?_, hfold, fun pnls w en sig => ?_⟩
  · rw [get_win_rate, get_win_rate, update_performance_win_rate_eq]
  · rw [optimize_source]
    have h0 : get_win_rate (StrategySource.mk w en
        (pnls.foldl update_performance initMetrics) sig).metrics = 0 := hfold pnls
    rw [h0]
    rw [if_neg (by norm_num), if_pos (by norm_num)]
    rfl

/-- C8 (amended): the insufficient-data handling lives in
`calculate_signal`, which returns no signal whenever the series is shorter
than the 120-bar position lookback. -/
theorem c8_amended_short_series_no_signal (data : MarketData)
    (h : data.length < 120) : calculate_signal data = none := by
  rw [calculate_signal, if_pos]
  exact h

/-- C8 witness: a one-bar series produces no signal. -/
theorem c8_amended_short_series_no_signal_witness : calculate_signal [flatBar] = none :=
  c8_amended_short_series_no_signal [flatBar] (by norm_num)

/-- C4 (amended): the confidence-based strength rule of step 5 is applied
unconditionally after step 4, so whenever an emitted signal's confidence
lies in [0.6, 0.8) its strength is medium — even if the emotion override
of step 4 had forced strong. -/
theorem c4_amended_step5_overrides (trend : TrendDirection) (position : RelativePosition)
    (bsp : List BuyingSellPoint) (div : Option String) (emo : EmotionSignals)
    (sig : TradingSignal)
    (h : make_comprehensive_decision trend position bsp div emo = some sig)
    (h1 : (0.6 : ℚ) ≤ sig.confidence) (h2 : sig.confidence < (0.8 : ℚ)) :
    sig.strength = SignalStrength.medium := by
  simp only [make_comprehensive_decision] at h
  split at h
  · exact absurd h (by simp)
  · rw [Option.some.injEq] at h
    subst h
    dsimp only at h1 h2 ⊢
    set c4 := (step4 (step1 trend bsp).1 emo
      (step3 (step1 trend bsp).1 div (step2 (step1 trend bsp).1 position (step1 trend bsp).2))
      SignalStrength.weak).1 with hc4
    have hlt : c4 < (0.8 : ℚ) := by
      by_contra hcon
      push_neg at hcon
      have : (0.8 : ℚ) ≤ min c4 1.0 := le_min hcon (by norm_num)
      linarith
    have hmin : min c4 1.0 = c4 := min_eq_left (by linarith)
    rw [hmin] at h1
    rw [step5, if_neg (not_le.mpr hlt), if_pos h1]

/-- C4 witness: at trend up, position high, a buy_2 point and
extreme-oversold emotion the composer emits buy/medium/0.7, and the
amended rule classifies that strength as medium. -/
theorem c4_amended_step5_overrides_witness :
    (TradingSignal.mk SignalType.buy SignalStrength.medium 0.7).strength
      = SignalStrength.medium :=
  c4_amended_step5_overrides TrendDirection.up RelativePosition.high
    [BuyingSellPoint.buy_2] none emotionOversold
    ⟨SignalType.buy, SignalStrength.medium, 0.7⟩ (by decide) (by norm_num) (by norm_num)

/-- C5 (amended): the buy-2/buy-3 (and sell-2/sell-3) tests are chained
with elif, so buy_3 (resp. sell_3) is only ever reported when the buy-2
(resp. sell-2) test failed — the classifications never co-occur. -/
theorem c5_amended_buy2_precedence :
    (∀ (strokes : List Stroke) (trend : TrendDirection),
      BuyingSellPoint.buy_3 ∈ identify_buy_sell_points strokes trend →
      is_second_buy_point strokes = false) ∧
    (∀ (strokes : List Stroke) (trend : TrendDirection),
      BuyingSellPoint.sell_3 ∈ identify_buy_sell_points strokes trend →
      is_second_sell_point strokes = false) := by
  constructor <;>
    · intro strokes trend h
      rw [identify_buy_sell_points] at h
      repeat' split at h
      all_goals simp_all

/-- C5 witness: on `strokesThirdOnly` the classifier reports buy_3, so the
buy-2 test must have failed there. -/
theorem c5_amended_buy2_precedence_witness :
    is_second_buy_point strokesThirdOnly = false :=
  c5_amended_buy2_precedence.1 strokesThirdOnly TrendDirection.up (by decide)

/-- Any signal the comprehensive decision emits is non-hold and has
confidence in [0, 1] (it is at least 0.5 before the cap at 1.0). -/
theorem composer_bounds (trend : TrendDirection) (position : RelativePosition)
    (bsp : List BuyingSellPoint) (div : Option String) (emo : EmotionSignals)
    (sig : TradingSignal)
    (h : make_comprehensive_decision trend position bsp div emo = some sig) :
    0 ≤ sig.confidence ∧ sig.confidence ≤ 1 ∧ sig.signal_type ≠ SignalType.hold := by
  simp only [make_comprehensive_decision] at h
  split at h
  · exact absurd h (by simp)
  · next hcond =>
    push_neg at hcond
    rw [Option.some.injEq] at h
    subst h
    refine ⟨le_min (by linarith [hcond.2]) (by norm_num), ?_, hcond.1⟩
    exact le_trans (min_le_right _ _) (by norm_num)

/-- The contributing weights are ≥ 0.1 each, so a nonempty contributor
list has positive total weight. -/
theorem totalWeight_pos (signals : List (TradingSignal × ℚ)) (hne : signals ≠ [])
    (hw : ∀ p ∈ signals, (0.1 : ℚ) ≤ p.2) : 0 < totalWeight signals := by
  match signals, hne with
  | p :: l, _ =>
    rw [totalWeight]
    simp only [List.map_cons, List.sum_cons]
    have h1 : (0.1 : ℚ) ≤ p.2 := hw p (List.mem_cons_self p l)
    have h2 : 0 ≤ (l.map (fun q => q.2)).sum := by
      apply List.sum_nonneg
      intro x hx
      obtain ⟨q, hq, rfl⟩ := List.mem_map.1 hx
      have := hw q (List.mem_cons_of_mem p hq)
      linarith
    linarith

/-- The weighted confidence sum is nonnegative when every contributor's
confidence is nonnegative and every weight at least 0.1. -/
theorem confidenceSum_nonneg (signals : List (TradingSignal × ℚ))
    (hb : ∀ p ∈ signals, 0 ≤ p.1.confidence ∧ (0.1 : ℚ) ≤ p.2) :
    0 ≤ confidenceSum signals := by
  rw [confidenceSum]
  apply List.sum_nonneg
  intro x hx
  obtain ⟨q, hq, rfl⟩ := List.mem_map.1 hx
  obtain ⟨h1, h2⟩ := hb q hq
  exact mul_nonneg h1 (by linarith)

/-- With confidences ≤ 1 the weighted confidence sum is bounded by the
total weight. -/
theorem confidenceSum_le_totalWeight (signals : List (TradingSignal × ℚ))
    (hb : ∀ p ∈ signals, p.1.confidence ≤ 1 ∧ (0.1 : ℚ) ≤ p.2) :
    confidenceSum signals ≤ totalWeight signals := by
  rw [confidenceSum, totalWeight]
  apply List.sum_le_sum
  intro q hq
  obtain ⟨h1, h2⟩ := hb q hq
  calc q.1.confidence * q.2 ≤ 1 * q.2 := mul_le_mul_of_nonneg_right h1 (by linarith)
    _ = q.2 := one_mul _

/-- Any composite signal the fusion decision emits from bounded
contributors is non-hold with confidence in [0, 1]. -/
theorem compositeDecision_bounds (risk_threshold : ℚ) (signals : List (TradingSignal × ℚ))
    (sig : TradingSignal) (hne : signals ≠ [])
    (hb : ∀ p ∈ signals, (0 ≤ p.1.confidence ∧ p.1.confidence ≤ 1) ∧
      ((0.1 : ℚ) ≤ p.2 ∧ p.2 ≤ 2))
    (h : compositeDecision risk_threshold signals = some sig) :
    0 ≤ sig.confidence ∧ sig.confidence ≤ 1 ∧ sig.signal_type ≠ SignalType.hold := by
  have htw : 0 < totalWeight signals :=
    totalWeight_pos signals hne (fun p hp => ((hb p hp).2).1)
  have hc0 : 0 ≤ confidenceSum signals :=
    confidenceSum_nonneg signals (fun p hp => ⟨((hb p hp).1).1, ((hb p hp).2).1⟩)
  have hc1 : confidenceSum signals ≤ totalWeight signals :=
    confidenceSum_le_totalWeight signals (fun p hp => ⟨((hb p hp).1).2, ((hb p hp).2).1⟩)
  have hn0 : 0 ≤ normalizeBy (totalWeight signals) (confidenceSum signals) := by
    rw [normalizeBy, if_pos htw]
    exact div_nonneg hc0 (le_of_lt htw)
  have hn1 : normalizeBy (totalWeight signals) (confidenceSum signals) ≤ 1 := by
    rw [normalizeBy, if_pos htw, div_le_one htw]
    exact hc1
  simp only [compositeDecision] at h
  split at h
  · rw [Option.some.injEq] at h
    subst h
    exact ⟨hn0, hn1, by simp⟩
  · split at h
    · rw [Option.some.injEq] at h
      subst h
      exact ⟨hn0, hn1, by simp⟩
    · exact absurd h (by simp)

/-- C6: every signal emitted by the comprehensive decision, and every
composite signal emitted by the fusion whose contributors have confidence
in [0,1] and weight in [0.1, 2.0], has confidence in [0,1]; hold outcomes
are represented by absence (`none`), never by an emitted hold signal. -/
theorem c6_confidence_invariant :
    (∀ (trend : TrendDirection) (position : RelativePosition)
        (bsp : List BuyingSellPoint) (div : Option String) (emo : EmotionSignals)
        (sig : TradingSignal),
      make_comprehensive_decision trend position bsp div emo = some sig →
      0 ≤ sig.confidence ∧ sig.confidence ≤ 1 ∧ sig.signal_type ≠ SignalType.hold) ∧
    (∀ (risk_threshold : ℚ) (sources : List StrategySource) (sig : TradingSignal),
      (∀ p ∈ collectSignals sources, (0 ≤ p.1.confidence ∧ p.1.confidence ≤ 1) ∧
        ((0.1 : ℚ) ≤ p.2 ∧ p.2 ≤ 2)) →
      calculate_composite_signal risk_threshold sources = some sig →
      0 ≤ sig.confidence ∧ sig.confidence ≤ 1 ∧ sig.signal_type ≠ SignalType.hold) := by
  refine ⟨composer_bounds, ?_⟩
  intro risk_threshold sources sig hb h
  rw [calculate_composite_signal] at h
  split at h
  · exact absurd h (by simp)
  · split at h
    · exact absurd h (by simp)
    · next hne => exact compositeDecision_bounds risk_threshold (collectSignals sources) sig hne hb h

/-- C6 witness: the Scenario D composite signal (buy/strong/0.9) satisfies
the confidence and non-hold invariants. -/
theorem c6_confidence_invariant_witness :
    0 ≤ (TradingSignal.mk SignalType.buy SignalStrength.strong 0.9).confidence ∧
    (TradingSignal.mk SignalType.buy SignalStrength.strong 0.9).confidence ≤ 1 ∧
    (TradingSignal.mk SignalType.buy SignalStrength.strong 0.9).signal_type ≠ SignalType.hold :=
  c6_confidence_invariant.2 0.6 [srcBuyStrong, srcSellWeak]
    ⟨SignalType.buy, SignalStrength.strong, 0.9⟩ (by decide) (by decide)

/-- A nonempty buy/sell-point classification forces the latest and the
previous stroke to have OPPOSITE directions. -/
theorem identify_nonempty_dirs_differ (strokes : List Stroke) (trend : TrendDirection)
    (h : identify_buy_sell_points strokes trend ≠ []) :
    ∃ latest prev, strokes.getLast? = some latest ∧ secondLast strokes = some prev ∧
      latest.direction ≠ prev.direction := by
  rw [identify_buy_sell_points] at h
  repeat' split at h
  all_goals first
    | exact absurd rfl h
    | (refine ⟨_, _, by assumption, by assumption, ?_⟩
       simp_all)

/-- A nonempty classification implies the divergence detector reports no
divergence on the same stroke list: the detector demands equal directions
on the last two strokes, the classifier opposite ones. -/
theorem identify_nonempty_divergence_none (data : MarketData) (strokes : List Stroke)
    (trend : TrendDirection) (h : identify_buy_sell_points strokes trend ≠ []) :
    detect_divergence data strokes = none := by
  obtain ⟨latest, prev, hl, hp, hd⟩ := identify_nonempty_dirs_differ strokes trend h
  rw [detect_divergence]
  split
  · rfl
  · simp only [hl, hp]
    rw [if_pos hd]

/-- With no buy/sell point the decision starts at hold and emits nothing,
whatever the divergence input. -/
theorem decision_nil_points (trend : TrendDirection) (position : RelativePosition)
    (div : Option String) (emo : EmotionSignals) :
    make_comprehensive_decision trend position [] div emo = none := by
  simp [make_comprehensive_decision, step1]

/-- C9: the divergence-confirmation branch of the composer is unreachable:
feeding the detector's output for a stroke list together with the
classifier's output for the same list always yields the same decision as
feeding no divergence at all, for every input series, stroke list, trend,
position and emotion reading. -/
theorem c9_divergence_boost_unreachable (data : MarketData) (strokes : List Stroke)
    (trend : TrendDirection) (position : RelativePosition) (emotion : EmotionSignals) :
    make_comprehensive_decision trend position (identify_buy_sell_points strokes trend)
      (detect_divergence data strokes) emotion =
    make_comprehensive_decision trend position (identify_buy_sell_points strokes trend)
      none emotion := by
  by_cases h : identify_buy_sell_points strokes trend = []
  · rw [h, decision_nil_points, decision_nil_points]
  · rw [identify_nonempty_divergence_none data strokes trend h]

end Medalion
